import Mathlib

/-!
Shallow embedding of the Glow-TTS training script
(`TTS/bin/train_glow_tts.py`) and proofs about its training-loop
orchestration: gradient-clipping order, data-dependent initialization,
single-process behavior, batch formatting, checkpoint restore, test-sentence
synthesis, top-level error handling and best-loss selection.

Tensors are abstracted as nested lists over `ℚ`; external collaborators
(model forward, criterion, synthesis, loggers) are abstracted as events in a
trace or as opaque parameters.  Side effects (backward, optimizer step,
collective reduce, file writes, process exit) are modelled as entries of an
event trace so that ordering and cardinality claims can be stated.
-/

/-- Observable side effects of the training script, in program order. -/
inductive Event where
  | zeroGrad : Event
  | forward (gradEnabled : Bool) : Event
  | computeLoss : Event
  | backward (scaled : Bool) : Event
  | unscaleGradients : Event
  | clipGradNorm (threshold : ℚ) : Event
  | optimizerStep (viaScaler : Bool) : Event
  | scalerUpdate : Event
  | schedulerStep : Event
  | reduceTensor (key : String) : Event
  | removeExperimentFolder : Event
  | printTraceback : Event
  | exitProcess (code : Nat) : Event
  deriving DecidableEq, Repr

/-- Configuration fields of the training script that the embedded control
flow reads (`config.*` in the source). -/
structure TrainConfig where
  mixed_precision : Bool
  noam_schedule : Bool
  grad_clip : ℚ
  use_speaker_embedding : Bool
  use_external_speaker_embedding_file : Bool
  run_eval : Bool
  test_delay_epochs : Nat
  data_dep_init_steps : Nat
  batch_size : Nat
  eval_batch_size : Nat
  batch_group_size : Nat
  num_loader_workers : Nat
  num_val_loader_workers : Nat
  deriving DecidableEq, Repr

/-- One training step of `train` (source lines 196-237): zero gradients,
autocast forward, loss, then the mixed-precision/plain backward-clip-step
block, the conditional scheduler step, and the distributed loss reduction. -/
def trainStepEvents (c : TrainConfig) (num_gpus : Nat) : List Event :=
  [Event.zeroGrad, Event.forward true, Event.computeLoss] ++
  (if c.mixed_precision then
    [Event.backward true, Event.unscaleGradients, Event.clipGradNorm c.grad_clip,
     Event.optimizerStep true, Event.scalerUpdate]
   else
    [Event.backward false, Event.clipGradNorm c.grad_clip, Event.optimizerStep false]) ++
  (if c.noam_schedule then [Event.schedulerStep] else []) ++
  (if num_gpus > 1 then
    [Event.reduceTensor "log_mle", Event.reduceTensor "loss_dur", Event.reduceTensor "loss"]
   else [])

def isClip : Event → Bool
  | Event.clipGradNorm _ => true
  | _ => false

def isBackward : Event → Bool
  | Event.backward _ => true
  | _ => false

def isUnscale : Event → Bool
  | Event.unscaleGradients => true
  | _ => false

def isOptimizerStep : Event → Bool
  | Event.optimizerStep _ => true
  | _ => false

def isSchedulerStep : Event → Bool
  | Event.schedulerStep => true
  | _ => false

def isReduce : Event → Bool
  | Event.reduceTensor _ => true
  | _ => false

def isForward : Event → Bool
  | Event.forward _ => true
  | _ => false

def isNoGradForward : Event → Bool
  | Event.forward g => !g
  | _ => false

/-- C1: In every training step the gradient norm is clipped to
`config.grad_clip` exactly once in both precision modes; under mixed
precision the scaler unscales before the clip; the clip comes after the
backward pass and before the optimizer step; and the scheduler steps exactly
when `noam_schedule` is set, after the optimizer step. -/
theorem train_step_clip_and_scheduler_order (c : TrainConfig) (num_gpus : Nat) :
    ((trainStepEvents c num_gpus).countP isClip = 1) ∧
    ((trainStepEvents c num_gpus).filter isClip = [Event.clipGradNorm c.grad_clip]) ∧
    (c.mixed_precision = true →
      (trainStepEvents c num_gpus).countP isUnscale = 1 ∧
      (trainStepEvents c num_gpus).findIdx isUnscale <
        (trainStepEvents c num_gpus).findIdx isClip) ∧
    ((trainStepEvents c num_gpus).findIdx isBackward <
      (trainStepEvents c num_gpus).findIdx isClip) ∧
    ((trainStepEvents c num_gpus).findIdx isClip <
      (trainStepEvents c num_gpus).findIdx isOptimizerStep) ∧
    ((trainStepEvents c num_gpus).countP isSchedulerStep =
      if c.noam_schedule then 1 else 0) ∧
    (c.noam_schedule = true →
      (trainStepEvents c num_gpus).findIdx isOptimizerStep <
        (trainStepEvents c num_gpus).findIdx isSchedulerStep) := by
  obtain ⟨mp, noam, gc, rest⟩ := c
  by_cases hg : num_gpus > 1 <;>
    cases mp <;> cases noam <;>
    simp [trainStepEvents, hg, isClip, isBackward, isUnscale, isOptimizerStep,
      isSchedulerStep, List.findIdx_cons, List.countP_cons]

/-- C1 witness: the ordering facts instantiated at a concrete mixed-precision
configuration with the Noam schedule enabled. -/
theorem train_step_clip_and_scheduler_order_witness :
    ((trainStepEvents (TrainConfig.mk true true 5 false false true 0 0 32 32 0 4 4) 1).countP
        isClip = 1) ∧
    ((trainStepEvents (TrainConfig.mk true true 5 false false true 0 0 32 32 0 4 4) 1).filter
        isClip = [Event.clipGradNorm 5]) ∧
    (true = true →
      (trainStepEvents (TrainConfig.mk true true 5 false false true 0 0 32 32 0 4 4) 1).countP
          isUnscale = 1 ∧
      (trainStepEvents (TrainConfig.mk true true 5 false false true 0 0 32 32 0 4 4) 1).findIdx
          isUnscale <
        (trainStepEvents (TrainConfig.mk true true 5 false false true 0 0 32 32 0 4 4) 1).findIdx
          isClip) ∧
    ((trainStepEvents (TrainConfig.mk true true 5 false false true 0 0 32 32 0 4 4) 1).findIdx
        isBackward <
      (trainStepEvents (TrainConfig.mk true true 5 false false true 0 0 32 32 0 4 4) 1).findIdx
        isClip) ∧
    ((trainStepEvents (TrainConfig.mk true true 5 false false true 0 0 32 32 0 4 4) 1).findIdx
        isClip <
      (trainStepEvents (TrainConfig.mk true true 5 false false true 0 0 32 32 0 4 4) 1).findIdx
        isOptimizerStep) ∧
    ((trainStepEvents (TrainConfig.mk true true 5 false false true 0 0 32 32 0 4 4) 1).countP
        isSchedulerStep = if true then 1 else 0) ∧
    (true = true →
      (trainStepEvents (TrainConfig.mk true true 5 false false true 0 0 32 32 0 4 4) 1).findIdx
          isOptimizerStep <
        (trainStepEvents (TrainConfig.mk true true 5 false false true 0 0 32 32 0 4 4) 1).findIdx
          isSchedulerStep) :=
  train_step_clip_and_scheduler_order (TrainConfig.mk true true 5 false false true 0 0 32 32 0 4 4) 1

/-- Outcome of running `main(args)` as observed by the top-level handler
(source lines 584-598). -/
inductive MainOutcome where
  | ok : MainOutcome
  | keyboardInterrupt : MainOutcome
  | otherException (msg : String) : MainOutcome
  deriving DecidableEq, Repr

/-- Top-level handler of `__main__` (source lines 587-598): a
KeyboardInterrupt removes the experiment folder and exits 0 (the inner
`sys.exit(0)` raises SystemExit which is re-caught and turned into
`os._exit(0)`, still code 0); any other `Exception` removes the folder,
prints the traceback and exits 1; a normal return performs none of these. -/
def topLevelTrace : MainOutcome → List Event
  | MainOutcome.ok => []
  | MainOutcome.keyboardInterrupt =>
      [Event.removeExperimentFolder, Event.exitProcess 0]
  | MainOutcome.otherException _ =>
      [Event.removeExperimentFolder, Event.printTraceback, Event.exitProcess 1]

def isRemoveFolder : Event → Bool
  | Event.removeExperimentFolder => true
  | _ => false

def isExit : Event → Bool
  | Event.exitProcess _ => true
  | _ => false

def isPrintTraceback : Event → Bool
  | Event.printTraceback => true
  | _ => false

/-- C7: a KeyboardInterrupt in `main` removes the experiment output folder
and exits with code 0 without printing a traceback; any other exception
removes the same folder, prints the full traceback, and exits with code 1;
in both cases the folder removal happens before the exit. -/
theorem top_level_interrupt_and_exception_handling (msg : String) :
    ((topLevelTrace MainOutcome.keyboardInterrupt).countP isRemoveFolder = 1 ∧
     (topLevelTrace MainOutcome.keyboardInterrupt).filter isExit = [Event.exitProcess 0] ∧
     (topLevelTrace MainOutcome.keyboardInterrupt).countP isPrintTraceback = 0 ∧
     (topLevelTrace MainOutcome.keyboardInterrupt).findIdx isRemoveFolder <
       (topLevelTrace MainOutcome.keyboardInterrupt).findIdx isExit) ∧
    ((topLevelTrace (MainOutcome.otherException msg)).countP isRemoveFolder = 1 ∧
     (topLevelTrace (MainOutcome.otherException msg)).filter isExit = [Event.exitProcess 1] ∧
     (topLevelTrace (MainOutcome.otherException msg)).countP isPrintTraceback = 1 ∧
     (topLevelTrace (MainOutcome.otherException msg)).findIdx isRemoveFolder <
       (topLevelTrace (MainOutcome.otherException msg)).findIdx isExit) := by
  refine ⟨⟨?_, ?_, ?_, ?_⟩, ⟨?_, ?_, ?_, ?_⟩⟩ <;>
    simp [topLevelTrace, isRemoveFolder, isExit, isPrintTraceback,
      List.countP_cons, List.findIdx_cons, List.filter_cons]

/-- Extended loss value: `float("inf")` or a finite loss. -/
inductive BestLoss where
  | posInf : BestLoss
  | finite (v : ℚ) : BestLoss
  deriving DecidableEq, Repr

/-- Python truthiness of `args.best_path` (`None` and the empty string are
falsy). -/
def pathTruthy : Option String → Bool
  | none => false
  | some s => !(s == "")

/-- Best-loss initialization of `main` (source lines 543-549):
`float("inf")` when `args.restore_step == 0 or not args.best_path`,
otherwise the `model_loss` stored at `args.best_path`. -/
def initBestLoss (restore_step : Nat) (best_path : Option String)
    (stored_model_loss : ℚ) : BestLoss :=
  if restore_step == 0 || !(pathTruthy best_path) then BestLoss.posInf
  else BestLoss.finite stored_model_loss

/-- Per-epoch target loss for best-model selection (source lines 566-568):
the train epoch average "avg_loss", overridden by the eval epoch average
when `config.run_eval` is set. -/
def epochTargetLoss (run_eval : Bool)
    (train_avg_loss_dict eval_avg_loss_dict : String → ℚ) : ℚ :=
  let target_loss := train_avg_loss_dict "avg_loss"
  if run_eval then eval_avg_loss_dict "avg_loss" else target_loss

/-- C9: the best-loss baseline is `+inf` exactly when no checkpoint step was
restored or no best-model path was given; otherwise it is the stored
`model_loss`; and the loss handed to best-model selection each epoch is the
eval average loss when `run_eval` is set and the train average loss
otherwise. -/
theorem best_loss_init_and_target_selection (restore_step : Nat)
    (best_path : Option String) (stored_model_loss : ℚ)
    (train_avg_loss_dict eval_avg_loss_dict : String → ℚ) :
    (initBestLoss restore_step best_path stored_model_loss = BestLoss.posInf ↔
      (restore_step = 0 ∨ pathTruthy best_path = false)) ∧
    (restore_step ≠ 0 → pathTruthy best_path = true →
      initBestLoss restore_step best_path stored_model_loss =
        BestLoss.finite stored_model_loss) ∧
    (epochTargetLoss true train_avg_loss_dict eval_avg_loss_dict =
      eval_avg_loss_dict "avg_loss") ∧
    (epochTargetLoss false train_avg_loss_dict eval_avg_loss_dict =
      train_avg_loss_dict "avg_loss") := by
  refine ⟨?_, ?_, rfl, rfl⟩
  · constructor
    · intro h
      by_cases h0 : restore_step = 0
      · exact Or.inl h0
      · right
        cases hb : pathTruthy best_path
        · rfl
        · exfalso
          simp [initBestLoss, h0, hb] at h
    · intro h
      rcases h with h | h
      · simp [initBestLoss, h]
      · simp [initBestLoss, h]
  · intro h0 hp
    simp [initBestLoss, h0, hp]

/-- C9 witness: with a restored step and a nonempty best path the baseline
is the stored loss; with step 0 it is `+inf`; target-loss selection at
concrete dictionaries. -/
theorem best_loss_init_and_target_selection_witness :
    ((initBestLoss 7 (some "best_model.pth") 3 = BestLoss.posInf ↔
      (7 = 0 ∨ pathTruthy (some "best_model.pth") = false)) ∧
    (7 ≠ 0 → pathTruthy (some "best_model.pth") = true →
      initBestLoss 7 (some "best_model.pth") 3 = BestLoss.finite 3) ∧
    (epochTargetLoss true (fun _ => 1) (fun _ => 2) = (fun _ => (2 : ℚ)) "avg_loss") ∧
    (epochTargetLoss false (fun _ => 1) (fun _ => 2) = (fun _ => (1 : ℚ)) "avg_loss")) ∧
    initBestLoss 7 (some "best_model.pth") 3 = BestLoss.finite 3 :=
  ⟨best_loss_init_and_target_selection 7 (some "best_model.pth") 3 (fun _ => 1) (fun _ => 2),
   (best_loss_init_and_target_selection 7 (some "best_model.pth") 3 (fun _ => 1)
      (fun _ => 2)).2.1 (by decide) (by decide)⟩

/-- Sampler handed to the DataLoader; the script only ever builds a
`DistributedSampler`. -/
inductive Sampler where
  | distributed : Sampler
  deriving DecidableEq, Repr

/-- Arguments the script passes to `MyDataset` and `DataLoader` in
`setup_loader` (source lines 41-78), restricted to the fields the control
flow computes. -/
structure LoaderSetup where
  dataset_batch_group_size : Nat
  dataset_use_noise_augment : Bool
  dataset_speaker_mapping_passed : Bool
  batch_size : Nat
  shuffle : Bool
  drop_last : Bool
  sampler : Option Sampler
  num_workers : Nat
  pin_memory : Bool
  deriving DecidableEq, Repr

/-- Embedding of `setup_loader` (source lines 37-79): returns `none` when
`is_val and not config.run_eval`, otherwise the dataset/loader arguments;
the sampler is a `DistributedSampler` iff `num_gpus > 1`. -/
def setup_loader (c : TrainConfig) (num_gpus : Nat) (is_val : Bool) :
    Option LoaderSetup :=
  if is_val && !c.run_eval then none
  else
    some
      { dataset_batch_group_size :=
          if is_val then 0 else c.batch_group_size * c.batch_size,
        dataset_use_noise_augment := !is_val,
        dataset_speaker_mapping_passed :=
          c.use_speaker_embedding && c.use_external_speaker_embedding_file,
        batch_size := if is_val then c.eval_batch_size else c.batch_size,
        shuffle := false,
        drop_last := false,
        sampler := if num_gpus > 1 then some Sampler.distributed else none,
        num_workers := if is_val then c.num_val_loader_workers else c.num_loader_workers,
        pin_memory := false }

/-- One evaluation step of `evaluate` (source lines 340-381): the whole loop
runs under `@torch.no_grad()`, and the loss terms are reduced across
processes only when `num_gpus > 1`. -/
def evalStepEvents (num_gpus : Nat) : List Event :=
  [Event.forward false, Event.computeLoss] ++
  (if num_gpus > 1 then
    [Event.reduceTensor "log_mle", Event.reduceTensor "loss_dur", Event.reduceTensor "loss"]
   else [])

/-- C3: with a single GPU every loader `setup_loader` builds has no sampler
(no `DistributedSampler` is constructed), and neither a training step nor an
evaluation step performs any `reduce_tensor` call. -/
theorem single_gpu_skips_distributed_paths (c : TrainConfig) (num_gpus : Nat)
    (is_val : Bool) (h : num_gpus = 1) :
    (∀ l : LoaderSetup, setup_loader c num_gpus is_val = some l → l.sampler = none) ∧
    (trainStepEvents c num_gpus).countP isReduce = 0 ∧
    (evalStepEvents num_gpus).countP isReduce = 0 := by
  subst h
  refine ⟨?_, ?_, ?_⟩
  · intro l hl
    by_cases hv : (is_val && !c.run_eval) = true
    · simp [setup_loader, hv] at hl
    · simp [setup_loader, hv] at hl
      rw [← hl]
  · obtain ⟨mp, noam, gc, rest⟩ := c
    cases mp <;> cases noam <;>
      simp [trainStepEvents, isReduce, List.countP_cons]
  · simp [evalStepEvents, isReduce, List.countP_cons]

/-- C3 witness: at a concrete configuration with one GPU the train loader
has no sampler and the step traces contain no reduce calls. -/
theorem single_gpu_skips_distributed_paths_witness :
    ((∀ l : LoaderSetup,
        setup_loader (TrainConfig.mk false false 5 false false true 0 0 32 32 0 4 4) 1 false =
          some l → l.sampler = none) ∧
      (trainStepEvents (TrainConfig.mk false false 5 false false true 0 0 32 32 0 4 4) 1).countP
          isReduce = 0 ∧
      (evalStepEvents 1).countP isReduce = 0) ∧
    (setup_loader (TrainConfig.mk false false 5 false false true 0 0 32 32 0 4 4) 1
        false).map LoaderSetup.sampler = some none :=
  ⟨single_gpu_skips_distributed_paths
      (TrainConfig.mk false false 5 false false true 0 0 32 32 0 4 4) 1 false rfl,
   by decide⟩

/-- Raw batch tuple yielded by the data loader, with the positional fields
`format_data` reads (`data[0]`, `data[1]`, `data[2]`, `data[4]`, `data[5]`,
`data[7]`, `data[8]`, `data[9]`).  Tensors are nested lists whose outer
dimension is the batch dimension. -/
structure RawBatch where
  text_input : List (List Nat)
  text_lengths : List Nat
  speaker_names : List String
  mel_input : List (List (List ℚ))
  mel_lengths : List Nat
  item_idx : List Nat
  speaker_embeddings : List (List ℚ)
  attn_mask : Option (List (List (List ℚ)))
  deriving Repr

/-- Speaker-conditioning value produced by `format_data`: either the
precomputed embedding tensor `data[8]` or a `LongTensor` of integer speaker
ids. -/
inductive SpeakerC where
  | embedding (e : List (List ℚ)) : SpeakerC
  | ids (l : List Nat) : SpeakerC
  deriving DecidableEq, Repr

/-- Batch (first) dimension of a speaker-conditioning value. -/
def speakerCBatchDim : SpeakerC → Nat
  | SpeakerC.embedding e => e.length
  | SpeakerC.ids l => l.length

/-- Mean of a list of naturals as a rational (`torch.mean(x.float())`). -/
def listMean (l : List Nat) : ℚ :=
  ((l.map (fun n => (n : ℚ))).sum) / (l.length : ℚ)

/-- Output tuple of `format_data` (source lines 115-125). -/
structure FormattedData where
  text_input : List (List Nat)
  text_lengths : List Nat
  mel_input : List (List (List ℚ))
  mel_lengths : List Nat
  speaker_c : Option SpeakerC
  avg_text_length : ℚ
  avg_spec_length : ℚ
  attn_mask : Option (List (List (List ℚ)))
  item_idx : List Nat
  deriving Repr

/-- Embedding of `format_data` (source lines 82-125).  `mel_input` is
`data[4].permute(0, 2, 1)`, i.e. each batch element transposed from
T x D to D x T; the speaker conditioning is `data[8]` in external-embedding
mode, the mapped speaker ids otherwise, and `None` when speaker embedding is
disabled.  The `.cuda()` device moves are identities in this model. -/
def format_data (c : TrainConfig) (speaker_mapping : String → Nat)
    (data : RawBatch) : FormattedData :=
  { text_input := data.text_input,
    text_lengths := data.text_lengths,
    mel_input := data.mel_input.map List.transpose,
    mel_lengths := data.mel_lengths,
    speaker_c :=
      if c.use_speaker_embedding then
        if c.use_external_speaker_embedding_file then
          some (SpeakerC.embedding data.speaker_embeddings)
        else
          some (SpeakerC.ids (data.speaker_names.map (fun n => speaker_mapping n)))
      else none,
    avg_text_length := listMean data.text_lengths,
    avg_spec_length := listMean data.mel_lengths,
    attn_mask := data.attn_mask,
    item_idx := data.item_idx }

/-- C4: the speaker conditioning returned by `format_data` is `None` iff
speaker embedding is disabled; in external-embedding mode it is exactly the
precomputed embedding tensor `data[8]`; otherwise it is the tensor of ids
obtained by mapping each speaker name through `speaker_mapping`, whose batch
dimension equals the input batch size. -/
theorem format_data_speaker_conditioning (c : TrainConfig)
    (speaker_mapping : String → Nat) (data : RawBatch)
    (hB : data.speaker_names.length = data.text_input.length) :
    ((format_data c speaker_mapping data).speaker_c = none ↔
      c.use_speaker_embedding = false) ∧
    (c.use_speaker_embedding = true → c.use_external_speaker_embedding_file = true →
      (format_data c speaker_mapping data).speaker_c =
        some (SpeakerC.embedding data.speaker_embeddings)) ∧
    (c.use_speaker_embedding = true → c.use_external_speaker_embedding_file = false →
      (format_data c speaker_mapping data).speaker_c =
        some (SpeakerC.ids (data.speaker_names.map (fun n => speaker_mapping n))) ∧
      (∀ sc : SpeakerC, (format_data c speaker_mapping data).speaker_c = some sc →
        speakerCBatchDim sc = data.text_input.length)) := by
  refine ⟨?_, ?_, ?_⟩
  · cases hs : c.use_speaker_embedding
    · simp [format_data, hs]
    · cases he : c.use_external_speaker_embedding_file <;> simp [format_data, hs, he]
  · intro hs he
    simp [format_data, hs, he]
  · intro hs he
    refine ⟨by simp [format_data, hs, he], ?_⟩
    intro sc hsc
    simp [format_data, hs, he] at hsc
    rw [← hsc]
    simp [speakerCBatchDim, hB]

/-- C4 witness: a two-element batch in integer-id mode yields the mapped id
tensor with batch dimension 2. -/
theorem format_data_speaker_conditioning_witness :
    (((format_data (TrainConfig.mk false false 5 true false true 0 0 32 32 0 4 4)
          (fun n => n.length)
          (RawBatch.mk [[1], [2]] [1, 1] ["ab", "cde"] [[], []] [0, 0] [0, 1] [[], []]
            none)).speaker_c = none ↔ true = false) ∧
    (true = true → false = true →
      (format_data (TrainConfig.mk false false 5 true false true 0 0 32 32 0 4 4)
          (fun n => n.length)
          (RawBatch.mk [[1], [2]] [1, 1] ["ab", "cde"] [[], []] [0, 0] [0, 1] [[], []]
            none)).speaker_c = some (SpeakerC.embedding [[], []])) ∧
    (true = true → false = false →
      (format_data (TrainConfig.mk false false 5 true false true 0 0 32 32 0 4 4)
          (fun n => n.length)
          (RawBatch.mk [[1], [2]] [1, 1] ["ab", "cde"] [[], []] [0, 0] [0, 1] [[], []]
            none)).speaker_c = some (SpeakerC.ids (["ab", "cde"].map (fun n => n.length))) ∧
      (∀ sc : SpeakerC,
        (format_data (TrainConfig.mk false false 5 true false true 0 0 32 32 0 4 4)
            (fun n => n.length)
            (RawBatch.mk [[1], [2]] [1, 1] ["ab", "cde"] [[], []] [0, 0] [0, 1] [[], []]
              none)).speaker_c = some sc →
        speakerCBatchDim sc = ([[1], [2]] : List (List Nat)).length))) :=
  format_data_speaker_conditioning
    (TrainConfig.mk false false 5 true false true 0 0 32 32 0 4 4)
    (fun n => n.length)
    (RawBatch.mk [[1], [2]] [1, 1] ["ab", "cde"] [[], []] [0, 0] [0, 1] [[], []] none)
    rfl

/-- A decoder flow sub-layer: `has_set_ddi` models the truthiness of
`getattr(f, "set_ddi", False)`, `ddi` the flag that `f.set_ddi(v)` sets. -/
structure FlowLayer where
  has_set_ddi : Bool
  ddi : Bool
  deriving DecidableEq, Repr

/-- The model as seen by `data_depended_init`: only its decoder flow list. -/
structure GlowTTSModel where
  flows : List FlowLayer
  deriving DecidableEq, Repr

/-- A model either held directly or wrapped by DistributedDataParallel (in
which case the underlying model is reached through `.module`). -/
inductive HeldModel where
  | plain (m : GlowTTSModel) : HeldModel
  | ddpWrapped (m : GlowTTSModel) : HeldModel
  deriving DecidableEq, Repr

/-- The `for f in ...decoder.flows: if getattr(f, "set_ddi", False):
f.set_ddi(v)` loop of `data_depended_init`. -/
def setDDIFlows (m : GlowTTSModel) (v : Bool) : GlowTTSModel :=
  { flows := m.flows.map (fun f => if f.has_set_ddi then { f with ddi := v } else f) }

/-- The `hasattr(model, "module")` dispatch of `data_depended_init` (source
lines 130-137 and 154-161): the flow list is resolved through
`model.module.decoder.flows` when wrapped and `model.decoder.flows`
otherwise. -/
def setDDIHeld (model : HeldModel) (v : Bool) : HeldModel :=
  match model with
  | HeldModel.plain m => HeldModel.plain (setDDIFlows m v)
  | HeldModel.ddpWrapped m => HeldModel.ddpWrapped (setDDIFlows m v)

/-- Decoder flow list of a held model, through `.module` when wrapped. -/
def heldFlows : HeldModel → List FlowLayer
  | HeldModel.plain m => m.flows
  | HeldModel.ddpWrapped m => m.flows

/-- Warm-up loop of `data_depended_init` (source lines 142-152), run under
`torch.no_grad()`: for each batch a forward pass happens first, then the
loop breaks when `num_iter == config.data_dep_init_steps`, else `num_iter`
is incremented. -/
def ddiWarmupTrace (loader : List RawBatch) (num_iter steps : Nat) : List Event :=
  match loader with
  | [] => []
  | _ :: rest =>
      Event.forward false ::
        (if num_iter = steps then [] else ddiWarmupTrace rest (num_iter + 1) steps)

/-- Embedding of `data_depended_init` (source lines 128-162): returns the
model state during the warm-up passes (all supporting flows enabled), the
warm-up trace, and the model returned to the caller (all supporting flows
disabled again). -/
def data_depended_init (loader : List RawBatch) (model : HeldModel)
    (steps : Nat) : HeldModel × List Event × HeldModel :=
  let enabled := setDDIHeld model true
  (enabled, ddiWarmupTrace loader 0 steps, setDDIHeld enabled false)

theorem setDDIFlows_supporting (m : GlowTTSModel) (v : Bool) :
    ∀ f ∈ (setDDIFlows m v).flows, f.has_set_ddi = true → f.ddi = v := by
  intro f hf hs
  simp only [setDDIFlows, List.mem_map] at hf
  obtain ⟨g, _, hg⟩ := hf
  by_cases h : g.has_set_ddi = true
  · rw [← hg]
    simp [h]
  · rw [← hg] at hs
    simp [h] at hs

theorem heldFlows_setDDIHeld (model : HeldModel) (v : Bool) :
    ∀ f ∈ heldFlows (setDDIHeld model v), f.has_set_ddi = true → f.ddi = v := by
  cases model with
  | plain m => exact setDDIFlows_supporting m v
  | ddpWrapped m => exact setDDIFlows_supporting m v

theorem ddiWarmupTrace_all_noGrad (loader : List RawBatch) (num_iter steps : Nat) :
    ∀ e ∈ ddiWarmupTrace loader num_iter steps, e = Event.forward false := by
  induction loader generalizing num_iter with
  | nil => simp [ddiWarmupTrace]
  | cons b rest ih =>
    intro e he
    simp only [ddiWarmupTrace, List.mem_cons] at he
    rcases he with he | he
    · exact he
    · by_cases h : num_iter = steps
      · simp [h] at he
      · rw [if_neg h] at he
        exact ih (num_iter + 1) e he

theorem ddiWarmupTrace_length (loader : List RawBatch) (num_iter steps : Nat)
    (h : num_iter ≤ steps) :
    (ddiWarmupTrace loader num_iter steps).length =
      min loader.length (steps + 1 - num_iter) := by
  induction loader generalizing num_iter with
  | nil => simp [ddiWarmupTrace]
  | cons b rest ih =>
    by_cases hn : num_iter = steps
    · subst hn
      simp only [ddiWarmupTrace, eq_self_iff_true, if_true, List.length_cons,
        List.length_nil]
      omega
    · have h1 : num_iter + 1 ≤ steps := by omega
      simp only [ddiWarmupTrace, if_neg hn, List.length_cons, ih (num_iter + 1) h1]
      omega

/-- C2 (amended): `data_depended_init` enables the ddi flag on every decoder
flow sub-layer supporting `set_ddi` (through `.module` when
distributed-wrapped) for the warm-up phase, runs
`min(len(loader), data_dep_init_steps + 1)` — hence at most
`data_dep_init_steps + 1` — forward passes, all with gradients disabled, and
disables the flag on every such sub-layer before returning. -/
theorem data_depended_init_flags_and_warmup (loader : List RawBatch)
    (model : HeldModel) (steps : Nat) :
    (∀ f ∈ heldFlows (data_depended_init loader model steps).1,
      f.has_set_ddi = true → f.ddi = true) ∧
    (∀ e ∈ (data_depended_init loader model steps).2.1, e = Event.forward false) ∧
    ((data_depended_init loader model steps).2.1.countP isForward =
      min loader.length (steps + 1)) ∧
    ((data_depended_init loader model steps).2.1.countP isForward ≤ steps + 1) ∧
    (∀ f ∈ heldFlows (data_depended_init loader model steps).2.2,
      f.has_set_ddi = true → f.ddi = false) := by
  have hall := ddiWarmupTrace_all_noGrad loader 0 steps
  have hcount : (ddiWarmupTrace loader 0 steps).countP isForward =
      (ddiWarmupTrace loader 0 steps).length := by
    rw [List.countP_eq_length]
    intro e he
    rw [hall e he]
    rfl
  have hlen := ddiWarmupTrace_length loader 0 steps (Nat.zero_le steps)
  refine ⟨heldFlows_setDDIHeld model true, hall, ?_, ?_, ?_⟩
  · show (ddiWarmupTrace loader 0 steps).countP isForward = _
    rw [hcount, hlen, Nat.sub_zero]
  · show (ddiWarmupTrace loader 0 steps).countP isForward ≤ steps + 1
    rw [hcount, hlen]
    omega
  · exact heldFlows_setDDIHeld (setDDIHeld model true) false

/-- C2 counterexample: with `data_dep_init_steps = 1` and a two-batch
loader, `data_depended_init` performs 2 warm-up forward passes, refuting
"at most `config.data_dep_init_steps` warm-up forward passes" —
the break check runs only after each forward pass. -/
theorem data_depended_init_step_count_counterexample :
    ¬ ((data_depended_init
          [RawBatch.mk [] [] [] [] [] [] [] none, RawBatch.mk [] [] [] [] [] [] [] none]
          (HeldModel.plain (GlowTTSModel.mk [FlowLayer.mk true false])) 1).2.1.countP
        isForward ≤ 1) := by
  decide

/-- C2 witness: the amended statement at a one-batch loader, a directly-held
one-flow model and `data_dep_init_steps = 0`, together with the concrete
flag values obtained by applying the theorem. -/
theorem data_depended_init_flags_and_warmup_witness :
    ((data_depended_init [RawBatch.mk [] [] [] [] [] [] [] none]
        (HeldModel.plain (GlowTTSModel.mk [FlowLayer.mk true false])) 0).2.1.countP
      isForward = min 1 (0 + 1)) ∧
    (FlowLayer.mk true true).ddi = true ∧
    (FlowLayer.mk true false).ddi = false :=
  ⟨(data_depended_init_flags_and_warmup
      [RawBatch.mk [] [] [] [] [] [] [] none]
      (HeldModel.plain (GlowTTSModel.mk [FlowLayer.mk true false])) 0).2.2.1,
   (data_depended_init_flags_and_warmup
      [RawBatch.mk [] [] [] [] [] [] [] none]
      (HeldModel.plain (GlowTTSModel.mk [FlowLayer.mk true false])) 0).1
     (FlowLayer.mk true true) (by decide) rfl,
   (data_depended_init_flags_and_warmup
      [RawBatch.mk [] [] [] [] [] [] [] none]
      (HeldModel.plain (GlowTTSModel.mk [FlowLayer.mk true false])) 0).2.2.2.2
     (FlowLayer.mk true false) (by decide) rfl⟩

/-- Checkpoint dictionary loaded by `torch.load(args.restore_path)`
(source line 507), with abstract state-dict type `S`. -/
structure Checkpoint (S : Type) where
  optimizerState : S
  modelState : S
  step : Nat

/-- State reached after the restore block of `main`. -/
structure RestoreResult (S : Type) where
  optimizerState : S
  modelState : S
  usedPartialInit : Bool
  printedWarnings : List String
  restore_step : Nat

/-- Embedding of the restore block of `main` (source lines 505-525).  The
`try` body first loads the optimizer state dict, then the model state dict;
either load may raise (`optLoadRaises`, `modelLoadRaises`).  The bare
`except` catches any exception and falls back to
`set_init_dict(model.state_dict(), checkpoint["model"], config)` loaded into
the model, printing a warning; in every outcome `args.restore_step` is set
to `checkpoint["step"]` and no exception escapes the block. -/
def restoreFromCheckpoint (S : Type) (optLoadRaises modelLoadRaises : Bool)
    (set_init_dict : S → S → S) (optState0 modelState0 : S)
    (ckpt : Checkpoint S) : Except String (RestoreResult S) :=
  if optLoadRaises then
    Except.ok
      { optimizerState := optState0,
        modelState := set_init_dict modelState0 ckpt.modelState,
        usedPartialInit := true,
        printedWarnings := [" > Partial model initialization."],
        restore_step := ckpt.step }
  else if modelLoadRaises then
    Except.ok
      { optimizerState := ckpt.optimizerState,
        modelState := set_init_dict modelState0 ckpt.modelState,
        usedPartialInit := true,
        printedWarnings := [" > Partial model initialization."],
        restore_step := ckpt.step }
  else
    Except.ok
      { optimizerState := ckpt.optimizerState,
        modelState := ckpt.modelState,
        usedPartialInit := false,
        printedWarnings := [],
        restore_step := ckpt.step }

/-- C5: the restore block never propagates an exception; when a state-dict
load raises, the model gets the `set_init_dict`-built partial state dict and
a warning is printed; when nothing raises, the full model and optimizer
states are loaded; in every outcome `args.restore_step` is the step stored
in the checkpoint. -/
theorem checkpoint_restore_fallback (S : Type)
    (optLoadRaises modelLoadRaises : Bool) (set_init_dict : S → S → S)
    (optState0 modelState0 : S) (ckpt : Checkpoint S) :
    (∃ r : RestoreResult S,
      restoreFromCheckpoint S optLoadRaises modelLoadRaises set_init_dict
        optState0 modelState0 ckpt = Except.ok r) ∧
    (∀ r : RestoreResult S,
      restoreFromCheckpoint S optLoadRaises modelLoadRaises set_init_dict
        optState0 modelState0 ckpt = Except.ok r →
      r.restore_step = ckpt.step ∧
      ((optLoadRaises = true ∨ modelLoadRaises = true) →
        r.usedPartialInit = true ∧
        r.modelState = set_init_dict modelState0 ckpt.modelState ∧
        r.printedWarnings = [" > Partial model initialization."]) ∧
      (optLoadRaises = false → modelLoadRaises = false →
        r.usedPartialInit = false ∧
        r.modelState = ckpt.modelState ∧
        r.optimizerState = ckpt.optimizerState)) := by
  cases optLoadRaises <;> cases modelLoadRaises <;>
    simp [restoreFromCheckpoint]

/-- C5 witness: a failing full load over `Nat` state dicts recovers with the
partial dict and records the checkpoint step. -/
theorem checkpoint_restore_fallback_witness :
    ((∃ r : RestoreResult Nat,
      restoreFromCheckpoint Nat false true (fun a b => a + b) 10 20
        (Checkpoint.mk 1 2 7) = Except.ok r) ∧
    (∀ r : RestoreResult Nat,
      restoreFromCheckpoint Nat false true (fun a b => a + b) 10 20
        (Checkpoint.mk 1 2 7) = Except.ok r →
      r.restore_step = (Checkpoint.mk (S := Nat) 1 2 7).step ∧
      ((false = true ∨ true = true) →
        r.usedPartialInit = true ∧
        r.modelState = 20 + 2 ∧
        r.printedWarnings = [" > Partial model initialization."]) ∧
      (false = false → true = false →
        r.usedPartialInit = false ∧
        r.modelState = (Checkpoint.mk (S := Nat) 1 2 7).modelState ∧
        r.optimizerState = (Checkpoint.mk (S := Nat) 1 2 7).optimizerState))) ∧
    (restoreFromCheckpoint Nat false true (fun a b => a + b) 10 20
        (Checkpoint.mk 1 2 7) = Except.ok
      (RestoreResult.mk 1 22 true [" > Partial model initialization."] 7)) :=
  ⟨checkpoint_restore_fallback Nat false true (fun a b => a + b) 10 20
      (Checkpoint.mk 1 2 7), rfl⟩

/-- Products of a successful `synthesis(...)` call that the per-sentence
loop body consumes (source line 448). -/
structure TestSynthOutput where
  wav : List ℚ
  alignment : List (List ℚ)
  postnet_output : List (List ℚ)
  deriving Repr

/-- Accumulated effects of the per-sentence loop: wav files written,
`test_audios` entries, and the indices whose `except` branch logged an
error. -/
structure TestSynthResult where
  savedFiles : List (Nat × String)
  test_audios : List (Nat × List ℚ)
  loggedErrors : List Nat
  deriving DecidableEq, Repr

/-- Path the loop writes each waveform to (source lines 463-465):
`os.path.join(AUDIO_PATH, str(global_step))` followed by
`os.path.join(..., "TestSentence_<idx>.wav")`, for an `AUDIO_PATH` without
trailing separator. -/
def testSentencePath (audio_path : String) (global_step idx : Nat) : String :=
  audio_path ++ "/" ++ toString global_step ++ "/TestSentence_" ++ toString idx ++ ".wav"

/-- Per-sentence loop of `evaluate` (source lines 446-472) starting at index
`idx`.  Each sentence's attempt (synthesis plus the save/figure calls inside
the `try`) is summarized by an `Except`; the `ok` branch records the saved
file and audio, the bare `except` branch records a logged error and the loop
continues with the next sentence. -/
def testSentenceLoopFrom (audio_path : String) (global_step : Nat) :
    Nat → List (Except String TestSynthOutput) → TestSynthResult
  | _, [] => { savedFiles := [], test_audios := [], loggedErrors := [] }
  | idx, o :: rest =>
      let r := testSentenceLoopFrom audio_path global_step (idx + 1) rest
      match o with
      | Except.ok out =>
          { savedFiles := (idx, testSentencePath audio_path global_step idx) :: r.savedFiles,
            test_audios := (idx, out.wav) :: r.test_audios,
            loggedErrors := r.loggedErrors }
      | Except.error _ =>
          { savedFiles := r.savedFiles,
            test_audios := r.test_audios,
            loggedErrors := idx :: r.loggedErrors }

/-- The whole `for idx, test_sentence in enumerate(test_sentences)` loop. -/
def testSentenceLoop (audio_path : String) (global_step : Nat)
    (outcomes : List (Except String TestSynthOutput)) : TestSynthResult :=
  testSentenceLoopFrom audio_path global_step 0 outcomes

def isErrOutcome : Except String TestSynthOutput → Bool
  | Except.error _ => true
  | Except.ok _ => false

def isOkOutcome : Except String TestSynthOutput → Bool
  | Except.error _ => false
  | Except.ok _ => true

theorem testSentenceLoopFrom_characterization (audio_path : String)
    (global_step : Nat) (outcomes : List (Except String TestSynthOutput))
    (i : Nat) :
    (testSentenceLoopFrom audio_path global_step i outcomes).loggedErrors =
      ((outcomes.enumFrom i).filter (fun p => isErrOutcome p.2)).map Prod.fst ∧
    (testSentenceLoopFrom audio_path global_step i outcomes).savedFiles.map Prod.fst =
      ((outcomes.enumFrom i).filter (fun p => isOkOutcome p.2)).map Prod.fst ∧
    (testSentenceLoopFrom audio_path global_step i outcomes).savedFiles.length +
      (testSentenceLoopFrom audio_path global_step i outcomes).loggedErrors.length =
      outcomes.length := by
  induction outcomes generalizing i with
  | nil => simp [testSentenceLoopFrom]
  | cons o rest ih =>
    obtain ⟨ih1, ih2, ih3⟩ := ih (i + 1)
    cases o with
    | ok out =>
      refine ⟨?_, ?_, ?_⟩
      · simp [testSentenceLoopFrom, List.enumFrom_cons, isErrOutcome, isOkOutcome, ih1]
      · simp [testSentenceLoopFrom, List.enumFrom_cons, isErrOutcome, isOkOutcome, ih2]
      · simp only [testSentenceLoopFrom, List.length_cons]
        omega
    | error e =>
      refine ⟨?_, ?_, ?_⟩
      · simp [testSentenceLoopFrom, List.enumFrom_cons, isErrOutcome, isOkOutcome, ih1]
      · simp [testSentenceLoopFrom, List.enumFrom_cons, isErrOutcome, isOkOutcome, ih2]
      · simp only [testSentenceLoopFrom, List.length_cons]
        omega

theorem testSentenceLoopFrom_saved_path (audio_path : String)
    (global_step : Nat) (outcomes : List (Except String TestSynthOutput))
    (i : Nat) :
    ∀ p ∈ (testSentenceLoopFrom audio_path global_step i outcomes).savedFiles,
      p.2 = testSentencePath audio_path global_step p.1 := by
  induction outcomes generalizing i with
  | nil => simp [testSentenceLoopFrom]
  | cons o rest ih =>
    intro p hp
    cases o with
    | ok out =>
      simp only [testSentenceLoopFrom, List.mem_cons] at hp
      rcases hp with hp | hp
      · rw [hp]
      · exact ih (i + 1) p hp
    | error e =>
      simp only [testSentenceLoopFrom] at hp
      exact ih (i + 1) p hp

/-- C6: every sentence is processed exactly once: the indices whose attempt
failed are exactly the ones logged, the indices whose attempt succeeded are
exactly the ones with a saved file, and their counts add up to the number of
sentences — no per-sentence failure stops the loop or escapes it. -/
theorem per_sentence_synthesis_isolation (audio_path : String)
    (global_step : Nat) (outcomes : List (Except String TestSynthOutput)) :
    (testSentenceLoop audio_path global_step outcomes).loggedErrors =
      (outcomes.enum.filter (fun p => isErrOutcome p.2)).map Prod.fst ∧
    (testSentenceLoop audio_path global_step outcomes).savedFiles.map Prod.fst =
      (outcomes.enum.filter (fun p => isOkOutcome p.2)).map Prod.fst ∧
    (testSentenceLoop audio_path global_step outcomes).savedFiles.length +
      (testSentenceLoop audio_path global_step outcomes).loggedErrors.length =
      outcomes.length :=
  testSentenceLoopFrom_characterization audio_path global_step outcomes 0

/-- Value stored per speaker in the external-embedding speaker mapping. -/
structure SpeakerInfo where
  embedding : List ℚ
  deriving DecidableEq, Repr

/-- Model of Python `random.randrange(stop)` where `r` stands for the RNG
draw: any value in `[0, stop)` can be produced (as `r` ranges over `Nat`),
and `stop = 0` raises `ValueError` (`none`). -/
def randrangeResult (stop r : Nat) : Option Nat :=
  if stop = 0 then none else some (r % stop)

/-- Index into the key list chosen for the test-sentence speaker (source
line 434): `randrange(len(speaker_mapping) - 1)`. -/
def pickTestSpeakerIdx (speaker_mapping : List (String × SpeakerInfo))
    (r : Nat) : Option Nat :=
  randrangeResult (speaker_mapping.length - 1) r

/-- The full external-mode test-speaker selection (source lines 434-436):
`speaker_mapping[list(speaker_mapping.keys())[randrange(len - 1)]]["embedding"]`. -/
def pickTestSpeaker (speaker_mapping : List (String × SpeakerInfo))
    (r : Nat) : Option (List ℚ) := do
  let i ← pickTestSpeakerIdx speaker_mapping r
  let key ← (speaker_mapping.map Prod.fst).get? i
  let info ← speaker_mapping.lookup key
  pure info.embedding

/-- Speaker conditioning handed to `synthesis` for the test sentences
(source lines 432-443). -/
structure SpeakerChoice where
  speaker_id : Option Nat
  speaker_embedding : Option (List ℚ)
  deriving DecidableEq, Repr

/-- Embedding of the speaker-selection block before the per-sentence loop.
In external mode the `randrange` call is outside any `try`, so its
`ValueError` (the `none` case) aborts the whole test section. -/
def speakerChoiceForTest (c : TrainConfig)
    (speaker_mapping : List (String × SpeakerInfo)) (r : Nat) :
    Except String SpeakerChoice :=
  if c.use_speaker_embedding then
    if c.use_external_speaker_embedding_file then
      match pickTestSpeaker speaker_mapping r with
      | none => Except.error "ValueError: empty range for randrange"
      | some emb =>
          Except.ok { speaker_id := none, speaker_embedding := some emb }
    else Except.ok { speaker_id := some 0, speaker_embedding := none }
  else Except.ok { speaker_id := none, speaker_embedding := none }

/-- Gate of the test-sentence section (source line 415):
`args.rank == 0 and epoch >= config.test_delay_epochs`. -/
def testSectionRuns (rank epoch test_delay_epochs : Nat) : Bool :=
  (rank == 0) && (test_delay_epochs ≤ epoch)

/-- Test-sentence section of `evaluate` (source lines 415-474): `none` when
the gate is off; otherwise the speaker selection runs first (it can abort
with an uncaught exception in external mode), then the guarded per-sentence
loop. -/
def evaluateTestSection (c : TrainConfig)
    (speaker_mapping : List (String × SpeakerInfo)) (r : Nat)
    (rank epoch : Nat) (audio_path : String) (global_step : Nat)
    (outcomes : List (Except String TestSynthOutput)) :
    Option (Except String (SpeakerChoice × TestSynthResult)) :=
  if testSectionRuns rank epoch c.test_delay_epochs then
    some
      (match speakerChoiceForTest c speaker_mapping r with
       | Except.error e => Except.error e
       | Except.ok ch =>
           Except.ok (ch, testSentenceLoop audio_path global_step outcomes))
  else none

/-- C8: the test-sentence section runs exactly when the process has rank 0
and the epoch is at or past `config.test_delay_epochs`, and every saved
waveform of sentence `idx` lands at
`<AUDIO_PATH>/<global_step>/TestSentence_<idx>.wav`. -/
theorem test_synthesis_gate_and_paths (c : TrainConfig)
    (speaker_mapping : List (String × SpeakerInfo)) (r : Nat)
    (rank epoch : Nat) (audio_path : String) (global_step : Nat)
    (outcomes : List (Except String TestSynthOutput)) :
    (evaluateTestSection c speaker_mapping r rank epoch audio_path global_step
        outcomes ≠ none ↔ (rank = 0 ∧ c.test_delay_epochs ≤ epoch)) ∧
    (∀ ch : SpeakerChoice, ∀ res : TestSynthResult,
      evaluateTestSection c speaker_mapping r rank epoch audio_path global_step
          outcomes = some (Except.ok (ch, res)) →
      ∀ p ∈ res.savedFiles,
        p.2 = audio_path ++ "/" ++ toString global_step ++ "/TestSentence_" ++
          toString p.1 ++ ".wav") := by
  constructor
  · by_cases hg : testSectionRuns rank epoch c.test_delay_epochs = true
    · simp only [evaluateTestSection, if_pos hg]
      simp only [testSectionRuns, Bool.and_eq_true, beq_iff_eq,
        decide_eq_true_eq] at hg
      simp [hg]
    · simp only [evaluateTestSection, if_neg hg]
      simp only [testSectionRuns, Bool.and_eq_true, beq_iff_eq,
        decide_eq_true_eq] at hg
      simpa using hg
  · intro ch res hres p hp
    by_cases hg : testSectionRuns rank epoch c.test_delay_epochs = true
    · simp only [evaluateTestSection, if_pos hg] at hres
      have : ∃ ch0, speakerChoiceForTest c speaker_mapping r = Except.ok ch0 ∧
          res = testSentenceLoop audio_path global_step outcomes := by
        cases hc : speakerChoiceForTest c speaker_mapping r with
        | error e => rw [hc] at hres; exact absurd hres (by simp)
        | ok ch0 =>
            rw [hc] at hres
            simp only [Option.some.injEq, Except.ok.injEq, Prod.mk.injEq] at hres
            exact ⟨ch0, rfl, hres.2.symm⟩
      obtain ⟨ch0, _, hres2⟩ := this
      rw [hres2] at hp
      exact testSentenceLoopFrom_saved_path audio_path global_step outcomes 0 p hp
    · simp [evaluateTestSection, if_neg hg] at hres

/-- C8 witness: with rank 0, epoch 0 and delay 0 the section runs, and the
single successful sentence is saved at `audio/3/TestSentence_0.wav`. -/
theorem test_synthesis_gate_and_paths_witness :
    (evaluateTestSection (TrainConfig.mk false false 5 false false true 0 0 32 32 0 4 4)
        [] 0 0 0 "audio" 3 [Except.ok (TestSynthOutput.mk [1] [] [])] ≠ none) ∧
    ((0, "audio/3/TestSentence_0.wav") ∈
      (testSentenceLoop "audio" 3 [Except.ok (TestSynthOutput.mk [1] [] [])]).savedFiles) ∧
    ("audio/3/TestSentence_0.wav" =
      "audio" ++ "/" ++ toString 3 ++ "/TestSentence_" ++ toString 0 ++ ".wav") :=
  ⟨(test_synthesis_gate_and_paths
      (TrainConfig.mk false false 5 false false true 0 0 32 32 0 4 4) [] 0 0 0 "audio" 3
      [Except.ok (TestSynthOutput.mk [1] [] [])]).1.mpr ⟨rfl, Nat.le_refl 0⟩,
   by decide,
   ((test_synthesis_gate_and_paths
      (TrainConfig.mk false false 5 false false true 0 0 32 32 0 4 4) [] 0 0 0 "audio" 3
      [Except.ok (TestSynthOutput.mk [1] [] [])]).2
      (SpeakerChoice.mk none none)
      (testSentenceLoop "audio" 3 [Except.ok (TestSynthOutput.mk [1] [] [])])
      rfl (0, "audio/3/TestSentence_0.wav") (by decide))⟩

/-- C10: the external-mode test-speaker index is drawn with
`randrange(len(speaker_mapping) - 1)`, so the speaker at the last key index
is never selected; and with exactly one speaker that call raises outside the
per-sentence handler, so the whole test section yields the uncaught
ValueError, aborting the evaluation epoch. -/
theorem external_test_speaker_pick_excludes_last (c : TrainConfig)
    (speaker_mapping : List (String × SpeakerInfo)) (r : Nat)
    (rank epoch : Nat) (audio_path : String) (global_step : Nat)
    (outcomes : List (Except String TestSynthOutput)) :
    (pickTestSpeakerIdx speaker_mapping r ≠ some (speaker_mapping.length - 1)) ∧
    (c.use_speaker_embedding = true → c.use_external_speaker_embedding_file = true →
      testSectionRuns rank epoch c.test_delay_epochs = true →
      speaker_mapping.length = 1 →
      evaluateTestSection c speaker_mapping r rank epoch audio_path global_step
        outcomes = some (Except.error "ValueError: empty range for randrange")) := by
  constructor
  · intro hcontra
    unfold pickTestSpeakerIdx randrangeResult at hcontra
    by_cases h : speaker_mapping.length - 1 = 0
    · rw [if_pos h] at hcontra
      exact Option.noConfusion hcontra
    · rw [if_neg h] at hcontra
      have h2 := Nat.mod_lt r (Nat.pos_of_ne_zero h)
      have h3 : r % (speaker_mapping.length - 1) = speaker_mapping.length - 1 :=
        Option.some.inj hcontra
      omega
  · intro hs he hg hlen
    have hpick : pickTestSpeaker speaker_mapping r = none := by
      simp [pickTestSpeaker, pickTestSpeakerIdx, randrangeResult, hlen]
    simp [evaluateTestSection, if_pos hg, speakerChoiceForTest, hs, he, hpick]

/-- C10 witness: with two speakers key index 1 is never drawn (draw 5
shown); with a single speaker the test section aborts with the ValueError. -/
theorem external_test_speaker_pick_excludes_last_witness :
    (pickTestSpeakerIdx [("a", SpeakerInfo.mk []), ("b", SpeakerInfo.mk [])] 5 ≠ some 1) ∧
    (evaluateTestSection (TrainConfig.mk false false 5 true true true 0 0 32 32 0 4 4)
        [("a", SpeakerInfo.mk [])] 5 0 0 "audio" 3 [] =
      some (Except.error "ValueError: empty range for randrange")) :=
  ⟨(external_test_speaker_pick_excludes_last
      (TrainConfig.mk false false 5 true true true 0 0 32 32 0 4 4)
      [("a", SpeakerInfo.mk []), ("b", SpeakerInfo.mk [])] 5 0 0 "audio" 3 []).1,
   (external_test_speaker_pick_excludes_last
      (TrainConfig.mk false false 5 true true true 0 0 32 32 0 4 4)
      [("a", SpeakerInfo.mk [])] 5 0 0 "audio" 3 []).2 rfl rfl rfl rfl⟩
